import Mathlib

/-!
Shallow embedding of the land-parcel backend (FastAPI + Celery + PostGIS):
the shapefile ingestion task, the spatial query endpoints, the Redis
cache-aside client, the WebSocket connection manager, and the statistics
aggregator, together with theorems about the claims of the specification.
-/

namespace LandParcel

/-- `PlotStatus` enum from `app/db/models.py`. -/
inductive PlotStatus
  | available
  | locked
  | pending_payment
  | sold
deriving DecidableEq, Repr

/-- A GeoJSON geometry as the code handles it: an opaque payload carrying the
shapely-observable attributes the code reads (`geom.area`) plus the
self-intersection property (which the ingestion code never inspects). -/
structure GeoJson where
  gid : Nat
  area : ℚ
  selfIntersecting : Bool
deriving DecidableEq, Repr

/-- A row of the `plots` table (`app/db/models.py`, class `Plot`),
restricted to the columns the embedded code reads. -/
structure Plot where
  id : Nat
  title : String
  description : String
  area_sqm : ℚ
  price : ℚ
  usage_type : String
  plot_number : String
  status : PlotStatus
  location_id : Option Nat
  geom : Option GeoJson
  uploaded_by_id : Nat
deriving DecidableEq, Repr

/-- The payload of `PlotCreate` (`app/schemas/plot.py`) as used by the
shapefile task. -/
structure PlotCreate where
  title : String
  description : String
  area_sqm : ℚ
  price : ℚ
  usage_type : String
  plot_number : String
  location_id : Option Nat
deriving DecidableEq, Repr

/-- A SQLAlchemy session over the record store: rows already committed and
rows added but not yet committed. -/
structure Session where
  committed : List Plot
  pending : List Plot
deriving DecidableEq, Repr

/-- `db.add(obj)`. -/
def Session.add (db : Session) (p : Plot) : Session :=
  { db with pending := db.pending ++ [p] }

/-- `db.commit()`: pending rows become durable and visible. -/
def Session.commit (db : Session) : Session :=
  { committed := db.committed ++ db.pending, pending := [] }

/-- `db.rollback()`: pending rows are discarded; committed rows stay. -/
def Session.rollback (db : Session) : Session :=
  { db with pending := [] }

/-- Number of rows in the session (used to mint the store-assigned id of the
next inserted row). -/
def Session.nextId (db : Session) : Nat :=
  db.committed.length + db.pending.length

/-- The `Plot(**plot_data, uploaded_by_id=user_id)` row built by
`create_plot`, with the store-assigned id. -/
def mkDbPlot (db : Session) (plot : PlotCreate) (user_id : Nat)
    (geometry : Option GeoJson) : Plot :=
  { id := db.nextId
    title := plot.title
    description := plot.description
    area_sqm := plot.area_sqm
    price := plot.price
    usage_type := plot.usage_type
    plot_number := plot.plot_number
    status := PlotStatus.available
    location_id := plot.location_id
    geom := geometry
    uploaded_by_id := user_id }

/-- `create_plot` from `app/crud/crud_plot.py`: adds the row and COMMITS the
session itself. `storeOk = false` models the record store raising a
`StoreError` on this INSERT; the exception escapes `create_plot` (it has no
handler) with the row still uncommitted. -/
def create_plot (db : Session) (plot : PlotCreate) (user_id : Nat)
    (geometry : Option GeoJson) (storeOk : Bool) : Except String (Session × Plot) :=
  if storeOk then
    Except.ok ((db.add (mkDbPlot db plot user_id geometry)).commit,
      mkDbPlot db plot user_id geometry)
  else Except.error "StoreError"

/-- One fiona feature of the uploaded dataset: its geometry and the DBF
properties the task reads (`properties.get(...)`; a missing numeric property
defaults to `0` in the code via `properties.get('AREA', 0)`). -/
structure Feature where
  geometry : GeoJson
  nameProp : Option String
  descProp : Option String
  areaProp : ℚ
  priceProp : ℚ
  usageProp : Option String
  plotNumProp : Option String
deriving DecidableEq, Repr

/-- `calculate_area_from_geometry` from `app/tasks/shapefile_tasks.py`:
`abs(geom.area) * 111000 * 111000`. -/
def calculate_area_from_geometry (geometry : GeoJson) : ℚ :=
  |geometry.area| * 111000 * 111000

/-- The `PlotCreate` built for one feature inside the `process_shapefile`
loop (`processed` is the zero-based index so titles read `Plot 1`, ...).
`float(...) or fallback` takes the fallback exactly when the property is 0. -/
def featureToPlotCreate (f : Feature) (processed : Nat) (location_id : Option Nat) :
    PlotCreate :=
  { title := f.nameProp.getD ("Plot " ++ toString (processed + 1))
    description := f.descProp.getD ""
    area_sqm := if f.areaProp = 0 then calculate_area_from_geometry f.geometry else f.areaProp
    price := if f.priceProp = 0 then 100000 else f.priceProp
    usage_type := f.usageProp.getD "Residential"
    plot_number := f.plotNumProp.getD ("SHP_" ++ toString (processed + 1))
    location_id := location_id }

/-- One `current_task.update_state(state='PROGRESS', meta=...)` call. -/
structure ProgressUpdate where
  progress : Nat
  statusMsg : String
deriving DecidableEq, Repr

/-- The Celery task result dictionary of `process_shapefile`. -/
structure JobResult where
  status : String
  message : String
  created_plots : List Nat
  total_processed : Nat
deriving DecidableEq, Repr

/-- The `current_task.update_state` call made at the top of each loop
iteration: `progress = int((processed / total_features) * 100)` and the
human-readable phase string. -/
def progressUpd (processed total : Nat) : ProgressUpdate :=
  { progress := processed * 100 / total
    statusMsg := "Processing feature " ++ toString (processed + 1) ++ " of " ++ toString total }

/-- The `for feature in shapefile_data` loop of `process_shapefile`
(`app/tasks/shapefile_tasks.py` lines 72-102). `storeOk n` tells whether the
record store accepts the n-th INSERT of this job. Returns the session after
the loop (including the `db.rollback()` done by the inner `except` when an
insert raised), the progress updates emitted, and either the created ids with
the final `processed` count or the propagated error. -/
def ingestLoop (user_id : Nat) (location_id : Option Nat) (storeOk : Nat → Bool)
    (total : Nat) :
    List Feature → Session → Nat → Session × List ProgressUpdate × Except String (List Nat × Nat)
  | [], db, processed => (db, [], Except.ok ([], processed))
  | f :: rest, db, processed =>
    match create_plot db (featureToPlotCreate f processed location_id) user_id
        (some f.geometry) (storeOk processed) with
    | Except.error e => (db.rollback, [progressUpd processed total], Except.error e)
    | Except.ok (db2, plot) =>
      match ingestLoop user_id location_id storeOk total rest db2 (processed + 1) with
      | (dbF, upds, Except.ok (created, pfinal)) =>
        (dbF, progressUpd processed total :: upds, Except.ok (plot.id :: created, pfinal))
      | (dbF, upds, Except.error e) =>
        (dbF, progressUpd processed total :: upds, Except.error e)

/-- `process_shapefile` from `app/tasks/shapefile_tasks.py`: emits the
initial progress update, runs the feature loop, commits, and builds the
result dictionary; any exception yields the FAILURE dictionary with an empty
`created_plots` list and `total_processed` 0. -/
def process_shapefile (features : List Feature) (user_id : Nat)
    (location_id : Option Nat) (storeOk : Nat → Bool) (db0 : Session) :
    Session × List ProgressUpdate × JobResult :=
  let total := features.length
  let init : ProgressUpdate := { progress := 0, statusMsg := "Starting shapefile processing" }
  let r := ingestLoop user_id location_id storeOk total features db0 0
  match r.2.2 with
  | Except.ok (created, processed) =>
    (r.1.commit, init :: r.2.1,
      { status := "SUCCESS"
        message := "Successfully processed " ++ toString processed ++ " plots from shapefile"
        created_plots := created
        total_processed := processed })
  | Except.error e =>
    (r.1, init :: r.2.1,
      { status := "FAILURE", message := e, created_plots := [], total_processed := 0 })

/-- A geographic coordinate pair `(lng, lat)`. -/
abbrev Point : Type := ℚ × ℚ

/-- The `ST_DWithin(ST_Transform(geom, 4326), point, radius_deg)` predicate
applied to one row, exactly as both radius queries phrase it (a NULL geometry
selects nothing). -/
def withinPred (dwithin : GeoJson → Point → ℚ → Bool) (lng lat radius_deg : ℚ)
    (p : Plot) : Bool :=
  match p.geom with
  | some g => dwithin g (lng, lat) radius_deg
  | none => false

/-- `find_plots_in_radius` from `app/tasks/geo_tasks.py`: selects the ids of
ALL plots (no status filter, no ordering, no limit) whose geometry satisfies
`ST_DWithin(geom, point, radius_km / 111)`; PostGIS predicates on a NULL
geometry select nothing. Any exception — in particular a record-store error —
is caught and the task returns the empty list. `dwithin` is the consumed
PostGIS `ST_DWithin` predicate over the transformed geometry. -/
def find_plots_in_radius (dwithin : GeoJson → Point → ℚ → Bool)
    (store : Except String (List Plot)) (lat lng radius_km : ℚ) : List Nat :=
  match store with
  | Except.error _ => []
  | Except.ok plots =>
    let radius_deg := radius_km / 111
    (plots.filter (withinPred dwithin lng lat radius_deg)).map (fun p => p.id)

/-- Insertion step for ordering by `ST_Distance` (ascending). -/
def insertByKey (key : Plot → ℚ) (p : Plot) : List Plot → List Plot
  | [] => [p]
  | q :: rest => if key p ≤ key q then p :: q :: rest else q :: insertByKey key p rest

/-- `ORDER BY ST_Distance(...)` over the selected rows. -/
def sortByKey (key : Plot → ℚ) : List Plot → List Plot
  | [] => []
  | p :: rest => insertByKey key p (sortByKey key rest)

/-- The direct (small-radius) branch of `get_plots_near_point`
(`app/api/endpoints/geo.py` lines 224-249): SQL over the store filtering
`ST_DWithin` AND `status = 'available'`, ordered by `ST_Distance` ascending,
`LIMIT limit`. -/
def radiusDirect (dwithin : GeoJson → Point → ℚ → Bool)
    (dist : GeoJson → Point → ℚ) (plots : List Plot) (lat lng radius_km : ℚ)
    (limit : Nat) : List Plot :=
  let radius_deg := radius_km / 111
  let selected := plots.filter (fun p =>
    withinPred dwithin lng lat radius_deg p && p.status == PlotStatus.available)
  (sortByKey (fun p =>
    match p.geom with
    | some g => dist g (lng, lat)
    | none => 0) selected).take limit

/-- The background-task (large-radius) branch of `get_plots_near_point`
(`app/api/endpoints/geo.py` lines 215-222): fetches ids from
`find_plots_in_radius`, then `db.query(Plot).filter(Plot.id.in_(plot_ids)).limit(limit)`
— no status filter and no ordering; empty ids short-circuit to no plots. -/
def radiusViaJob (dwithin : GeoJson → Point → ℚ → Bool)
    (store : Except String (List Plot)) (lat lng radius_km : ℚ) (limit : Nat) :
    Except Nat (List Plot) :=
  let plot_ids := find_plots_in_radius dwithin store lat lng radius_km
  if plot_ids.isEmpty then Except.ok []
  else
    match store with
    | Except.error _ => Except.error 500
    | Except.ok plots => Except.ok ((plots.filter (fun p => plot_ids.contains p.id)).take limit)

/-- The response dictionary of `get_plots_near_point`. -/
structure NearPointResponse where
  plots : List Plot
  center : Point
  radius_km : ℚ
  count : Nat
deriving DecidableEq, Repr

/-- `get_plots_near_point` from `app/api/endpoints/geo.py`: dispatches on
`radius_km > 10` between the background-task path and the direct SQL path;
any exception inside the handler becomes an HTTP 500 (`Except.error 500`). -/
def get_plots_near_point (dwithin : GeoJson → Point → ℚ → Bool)
    (dist : GeoJson → Point → ℚ) (store : Except String (List Plot))
    (lat lng radius_km : ℚ) (limit : Nat) : Except Nat NearPointResponse :=
  if radius_km > 10 then
    match radiusViaJob dwithin store lat lng radius_km limit with
    | Except.error code => Except.error code
    | Except.ok plots =>
      Except.ok { plots := plots, center := (lat, lng), radius_km := radius_km,
                  count := plots.length }
  else
    match store with
    | Except.error _ => Except.error 500
    | Except.ok plots =>
      let res := radiusDirect dwithin dist plots lat lng radius_km limit
      Except.ok { plots := res, center := (lat, lng), radius_km := radius_km,
                  count := res.length }

/-- One returned row of `get_plots_in_area` (the columns its SELECT lists). -/
structure AreaPlotRow where
  id : Nat
  title : String
  price : ℚ
  area_sqm : ℚ
  status : PlotStatus
  geometry : Option GeoJson
deriving DecidableEq, Repr

/-- The response dictionary of `get_plots_in_area`. -/
structure AreaResponse where
  plots : List AreaPlotRow
  count : Nat
  polygon : List Point
deriving DecidableEq, Repr

/-- `get_plots_in_area` from `app/api/endpoints/geo.py` lines 154-200. The
WKT ring is built as the input coordinates with the FIRST coordinate appended
unconditionally; empty input raises `IndexError` on `polygon_coords[0]` and a
closed ring of fewer than 4 points fails `ST_GeomFromText` — both exceptions
are caught by the blanket handler and become HTTP 500, never a 400
validation error. Accepted rings select `ST_Within(geom, ring)` AND
`status = 'available'`. `within` is the consumed PostGIS `ST_Within`. -/
def get_plots_in_area (within : GeoJson → List Point → Bool)
    (store : Except String (List Plot)) (polygon_coords : List Point) :
    Except Nat AreaResponse :=
  match polygon_coords with
  | [] => Except.error 500
  | c0 :: _ =>
    let ring := polygon_coords ++ [c0]
    if ring.length < 4 then Except.error 500
    else
      match store with
      | Except.error _ => Except.error 500
      | Except.ok plots =>
        let rows := (plots.filter (fun p =>
          (match p.geom with
           | some g => within g ring
           | none => false) && p.status == PlotStatus.available)).map (fun p =>
            { id := p.id, title := p.title, price := p.price, area_sqm := p.area_sqm,
              status := p.status, geometry := p.geom : AreaPlotRow })
        Except.ok { plots := rows, count := rows.length, polygon := polygon_coords }

/-- State of the Redis client of `app/core/redis.py`: whether `connect`
succeeded (`self.redis is not None`), whether the server is currently
reachable (an operation on an unreachable server raises), and the stored
key/value pairs. -/
structure RedisState where
  connected : Bool
  reachable : Bool
  store : List (String × String)
deriving DecidableEq, Repr

/-- The underlying `redis.get`: raises when the server is unreachable. -/
def rawGet (s : RedisState) (key : String) : Except String (Option String) :=
  if s.reachable then Except.ok (s.store.lookup key) else Except.error "ConnectionError"

/-- The underlying `redis.setex`. -/
def rawSetex (s : RedisState) (key value : String) : Except String RedisState :=
  if s.reachable then
    Except.ok { s with store := (key, value) :: s.store.eraseP (fun kv => kv.1 == key) }
  else Except.error "ConnectionError"

/-- The underlying `redis.delete`. -/
def rawDelete (s : RedisState) (key : String) : Except String RedisState :=
  if s.reachable then
    Except.ok { s with store := s.store.eraseP (fun kv => kv.1 == key) }
  else Except.error "ConnectionError"

/-- `RedisClient.get` (`app/core/redis.py` lines 28-37): returns `none` when
not connected; catches every operation error and returns `none`; an empty
value is falsy in `json.loads(value) if value else None` and yields `none`.
The `Except` result records whether an exception escapes to the caller. -/
def RedisClient.get (s : RedisState) (key : String) : Except String (Option String) :=
  if !s.connected then Except.ok none
  else
    match rawGet s key with
    | Except.ok (some v) => Except.ok (if v = "" then none else some v)
    | Except.ok none => Except.ok none
    | Except.error _ => Except.ok none

/-- `RedisClient.set` (lines 39-48): returns `False` without raising when not
connected or when the operation fails; returns `True` and the updated store
on success. -/
def RedisClient.set (s : RedisState) (key value : String) :
    Except String (Bool × RedisState) :=
  if !s.connected then Except.ok (false, s)
  else
    match rawSetex s key value with
    | Except.ok s2 => Except.ok (true, s2)
    | Except.error _ => Except.ok (false, s)

/-- `RedisClient.delete` (lines 50-59): same best-effort shape as `set`. -/
def RedisClient.delete (s : RedisState) (key : String) :
    Except String (Bool × RedisState) :=
  if !s.connected then Except.ok (false, s)
  else
    match rawDelete s key with
    | Except.ok s2 => Except.ok (true, s2)
    | Except.error _ => Except.ok (false, s)

/-- `ConnectionManager` from `app/api/endpoints/websocket.py`: the list of
live connections (transport handles modelled as naturals) and the per-user
map. -/
structure ConnectionManager where
  active_connections : List Nat
  user_connections : List (String × Nat)
deriving DecidableEq, Repr

/-- `ConnectionManager.disconnect`: removes the first occurrence of the
handle if present (`if websocket in ...: remove`), and the user entry when a
user id is supplied. -/
def ConnectionManager.disconnect (m : ConnectionManager) (ws : Nat)
    (user_id : Option String) : ConnectionManager :=
  { active_connections := m.active_connections.erase ws
    user_connections :=
      match user_id with
      | some uid => m.user_connections.eraseP (fun kv => kv.1 == uid)
      | none => m.user_connections }

/-- `ConnectionManager.broadcast`: attempts `send_text` on every registered
connection (each send wrapped in its own try), accumulates the ones whose
send raised, then disconnects exactly those. `sendOk c` tells whether the
send to connection `c` succeeds. Returns the manager after the loop and the
list of connections a send was attempted on. -/
def ConnectionManager.broadcast (m : ConnectionManager) (sendOk : Nat → Bool) :
    ConnectionManager × List Nat :=
  let attempted := m.active_connections
  let disconnected := m.active_connections.filter (fun c => !sendOk c)
  (disconnected.foldl (fun acc c => acc.disconnect c none) m, attempted)

/-- A realtime message as the WebSocket endpoints see it: its `type` field
and the timestamp it carries (time modelled as a natural counter). -/
structure WsMessage where
  type : String
  timestamp : Nat
deriving DecidableEq, Repr

/-- Per-message behaviour of the general `/ws` endpoint
(`websocket_endpoint`, lines 56-82): a `ping` is answered with a `pong`
carrying the current time (`datetime.utcnow()`); `subscribe` and everything
else send nothing back. -/
def websocket_endpoint_handle (msg : WsMessage) (now : Nat) : Option WsMessage :=
  if msg.type == "ping" then some { type := "pong", timestamp := now }
  else none

/-- Per-message behaviour of the `/ws/plots` endpoint
(`plot_updates_websocket`, lines 99-114): inbound client messages are read
and discarded (`# Handle client messages if needed` — `pass`); nothing is
ever sent in response. -/
def plot_updates_websocket_handle (_msg : WsMessage) (_now : Nat) : Option WsMessage :=
  none

/-- The statistics dictionary of `calculate_plot_statistics`. -/
structure PlotStats where
  total_plots : Nat
  available_plots : Nat
  sold_plots : Nat
  total_area : ℚ
  average_price : ℚ
  price_min : ℚ
  price_max : ℚ
deriving DecidableEq, Repr

/-- `min(float(p.price) for p in plots)` on a nonempty list. -/
def listMin (x : ℚ) (xs : List ℚ) : ℚ := xs.foldl min x

/-- `max(float(p.price) for p in plots)` on a nonempty list. -/
def listMax (x : ℚ) (xs : List ℚ) : ℚ := xs.foldl max x

/-- The `query.filter(Plot.location_id == location_id)` step of
`calculate_plot_statistics` (applied only when a location id is given). -/
def locationFilter (allPlots : List Plot) (location_id : Option Nat) : List Plot :=
  match location_id with
  | some lid => allPlots.filter (fun p => p.location_id == some lid)
  | none => allPlots

/-- `calculate_plot_statistics` from `app/tasks/geo_tasks.py` lines 13-44:
filters by location when given, then computes counts, total area, average
price (`sum/len if plots else 0`) and min/max price (each `if plots else 0`);
a store error is caught and returned as an error dictionary. -/
def calculate_plot_statistics (store : Except String (List Plot))
    (location_id : Option Nat) : Except String PlotStats :=
  match store with
  | Except.error e => Except.error e
  | Except.ok allPlots =>
    let plots : List Plot := locationFilter allPlots location_id
    Except.ok
      { total_plots := plots.length
        available_plots := (plots.filter (fun p => p.status == PlotStatus.available)).length
        sold_plots := (plots.filter (fun p => p.status == PlotStatus.sold)).length
        total_area := (plots.map (fun p => p.area_sqm)).sum
        average_price :=
          match plots with
          | [] => 0
          | _ :: _ => (plots.map (fun p => p.price)).sum / (plots.length : ℚ)
        price_min :=
          match plots with
          | [] => 0
          | p :: rest => listMin p.price (rest.map (fun q => q.price))
        price_max :=
          match plots with
          | [] => 0
          | p :: rest => listMax p.price (rest.map (fun q => q.price)) }

/-! ## Concrete inputs used by evaluation theorems -/

/-- A demo geometry; `selfX` marks a self-intersecting polygon. -/
def demoGeom (n : Nat) (selfX : Bool) : GeoJson :=
  { gid := n, area := 1, selfIntersecting := selfX }

/-- A demo feature with well-formed, nonzero DBF properties. -/
def demoFeature (n : Nat) (selfX : Bool) : Feature :=
  { geometry := demoGeom n selfX, nameProp := some ("Feature" ++ toString n),
    descProp := none, areaProp := 50, priceProp := 200, usageProp := none,
    plotNumProp := none }

/-- An initially empty record store session. -/
def emptySession : Session := { committed := [], pending := [] }

/-- A valid 3-feature dataset. -/
def c1Features : List Feature :=
  [demoFeature 1 false, demoFeature 2 false, demoFeature 3 false]

/-- Store-failure injection: the record store rejects the second INSERT
(index 1) of the job. -/
def c1StoreOk : Nat → Bool := fun n => !(n == 1)

/-- The ingestion job of claim C1 run against the empty store with a failure
on the second feature. -/
def c1Run : Session × List ProgressUpdate × JobResult :=
  process_shapefile c1Features 7 none c1StoreOk emptySession

/-- A 3-feature dataset whose second feature carries a self-intersecting
polygon. -/
def c2Features : List Feature :=
  [demoFeature 1 false, demoFeature 2 true, demoFeature 3 false]

/-- The ingestion job of claim C2: no store failures. -/
def c2Run : Session × List ProgressUpdate × JobResult :=
  process_shapefile c2Features 7 none (fun _ => true) emptySession

/-! ## Ingestion lemmas -/

/-- When the store accepts every INSERT, the feature loop returns `ok` with
one created id per feature and the processed counter advanced by the number
of features. -/
theorem ingestLoop_allOk :
    ∀ (fs : List Feature) (user_id : Nat) (location_id : Option Nat) (total : Nat)
      (db : Session) (k : Nat),
      ∃ created : List Nat,
        (ingestLoop user_id location_id (fun _ => true) total fs db k).2.2 =
          Except.ok (created, k + fs.length) ∧ created.length = fs.length := by
  intro fs
  induction fs with
  | nil =>
    intro user_id location_id total db k
    exact ⟨[], by simp [ingestLoop], rfl⟩
  | cons f rest ih =>
    intro user_id location_id total db k
    obtain ⟨created, h1, h2⟩ :=
      ih user_id location_id total
        ((db.add (mkDbPlot db (featureToPlotCreate f k location_id) user_id
          (some f.geometry))).commit) (k + 1)
    rcases hr : ingestLoop user_id location_id (fun _ => true) total rest
        ((db.add (mkDbPlot db (featureToPlotCreate f k location_id) user_id
          (some f.geometry))).commit) (k + 1) with ⟨dbF, upds, res⟩
    rw [hr] at h1
    simp only at h1
    subst h1
    refine ⟨db.nextId :: created, ?_, by simp [h2]⟩
    simp only [ingestLoop, create_plot, if_true]
    rw [hr]
    have harith : k + 1 + rest.length = k + (rest.length + 1) := by omega
    simp [mkDbPlot, harith]

/-! ## Claims C1 and C2 -/

/-- C1: the spec says a store failure on any feature ends the job in FAILURE
with zero parcels of the job visible. On the code, `create_plot` commits the
session after every single INSERT, so when the store rejects the second
feature of a 3-feature job the result is FAILURE but the first feature's
parcel is already committed and stays visible: one parcel, not zero. -/
theorem C1_store_failure_leaves_partial_parcels :
    c1Run.2.2.status = "FAILURE" ∧ c1Run.1.committed.length = 1 ∧
      c1Run.1.committed.length ≠ 0 := by
  refine ⟨rfl, rfl, by decide⟩

/-- C2 counterexample: the claim predicts that a 3-feature dataset with one
self-intersecting feature yields SUCCESS with `totalProcessed == 2` and two
created parcels. The code performs no geometry validation or repair during
ingestion, so the run succeeds with all 3 features processed and 3 parcels
created, refuting the claimed 2/2 outcome. -/
theorem C2_counterexample :
    c2Run.2.2.status = "SUCCESS" ∧ c2Run.2.2.total_processed = 3 ∧
      c2Run.2.2.created_plots.length = 3 ∧
      ¬(c2Run.2.2.total_processed = 2 ∧ c2Run.2.2.created_plots.length = 2) := by
  refine ⟨rfl, rfl, rfl, by decide⟩

/-- C2 amended: ingestion never skips a feature for geometry reasons — there
is no validity check and no zero-buffer repair in `process_shapefile` (the
buffer(0) fix-up lives only in the separate `optimize_plot_geometries` task).
With no store failure, every dataset (including ones with self-intersecting
features) yields SUCCESS with `total_processed` and created-parcel count
equal to the full feature count. -/
theorem C2_amended_no_feature_skipped (features : List Feature) (user_id : Nat)
    (location_id : Option Nat) (db0 : Session) :
    (process_shapefile features user_id location_id (fun _ => true) db0).2.2.status
        = "SUCCESS" ∧
    (process_shapefile features user_id location_id (fun _ => true) db0).2.2.total_processed
        = features.length ∧
    (process_shapefile features user_id location_id (fun _ => true) db0).2.2.created_plots.length
        = features.length := by
  obtain ⟨created, h1, h2⟩ :=
    ingestLoop_allOk features user_id location_id features.length db0 0
  simp [process_shapefile, h1, h2]

/-! ## Claim C5 -/

/-- C5: cache operations are best-effort. When the key/value store is
unreachable, `get` returns `ok none` (absent, no exception to the caller)
and `set`/`delete` return `ok false` leaving the state unchanged — cache
unavailability is never surfaced as an error of the calling operation. -/
theorem C5_cache_best_effort (s : RedisState) (key value : String)
    (h : s.reachable = false) :
    RedisClient.get s key = Except.ok none ∧
    RedisClient.set s key value = Except.ok (false, s) ∧
    RedisClient.delete s key = Except.ok (false, s) := by
  rcases s with ⟨c, r, st⟩
  cases r with
  | true => cases h
  | false =>
    cases c <;>
      simp [RedisClient.get, RedisClient.set, RedisClient.delete,
        rawGet, rawSetex, rawDelete]

/-- C5 witness: a connected client over an unreachable store, on key "k". -/
theorem C5_cache_best_effort_witness :
    RedisClient.get { connected := true, reachable := false, store := [("k", "v")] } "k"
        = Except.ok none ∧
    RedisClient.set { connected := true, reachable := false, store := [("k", "v")] } "k" "w"
        = Except.ok (false, { connected := true, reachable := false, store := [("k", "v")] }) ∧
    RedisClient.delete { connected := true, reachable := false, store := [("k", "v")] } "k"
        = Except.ok (false, { connected := true, reachable := false, store := [("k", "v")] }) :=
  C5_cache_best_effort _ "k" "w" rfl

/-! ## Claim C7 -/

/-- C7 counterexample: the claim says a ping on ANY realtime endpoint is
answered with a pong. The `/ws/plots` endpoint reads inbound client messages
and discards them, so a ping there gets no answer at all. -/
theorem C7_counterexample_plots_endpoint_ignores_ping :
    plot_updates_websocket_handle { type := "ping", timestamp := 0 } 1 = none := rfl

/-- C7 amended: on the general `/ws` endpoint every ping is answered with a
pong carrying the handling-time timestamp; whenever the ping is handled after
it was sent, the pong's timestamp is newer than the ping's. -/
theorem C7_amended_ws_ping_pong (t now : Nat) (h : t < now) :
    ∃ resp, websocket_endpoint_handle { type := "ping", timestamp := t } now = some resp ∧
      resp.type = "pong" ∧ resp.timestamp = now ∧ t < resp.timestamp :=
  ⟨{ type := "pong", timestamp := now }, rfl, rfl, rfl, h⟩

/-- C7 witness: a ping sent at time 0 and handled at time 1. -/
theorem C7_amended_ws_ping_pong_witness :
    ∃ resp, websocket_endpoint_handle { type := "ping", timestamp := 0 } 1 = some resp ∧
      resp.type = "pong" ∧ resp.timestamp = 1 ∧ 0 < resp.timestamp :=
  C7_amended_ws_ping_pong 0 1 (by decide)

/-! ## Claim C9 -/

/-- C9: when zero plots match the location filter, the statistics task
returns all counts 0, total area 0, average price 0 and price range 0/0 —
the guards `if plots else 0` avoid both the division by zero and the
min/max over an empty collection. -/
theorem C9_stats_empty_total (allPlots : List Plot) (location_id : Option Nat)
    (h : locationFilter allPlots location_id = []) :
    calculate_plot_statistics (Except.ok allPlots) location_id =
      Except.ok { total_plots := 0, available_plots := 0, sold_plots := 0,
                  total_area := 0, average_price := 0, price_min := 0,
                  price_max := 0 } := by
  simp [calculate_plot_statistics, h]

/-- A demo stored plot, attached to location 5. -/
def demoPlot : Plot :=
  { id := 3, title := "T", description := "", area_sqm := 120, price := 9,
    usage_type := "Residential", plot_number := "N3", status := PlotStatus.sold,
    location_id := some 5, geom := some (demoGeom 3 false), uploaded_by_id := 2 }

/-- C9 witness: a store holding one plot in location 5, queried for
location 9 (zero matches). -/
theorem C9_stats_empty_total_witness :
    calculate_plot_statistics (Except.ok [demoPlot]) (some 9) =
      Except.ok { total_plots := 0, available_plots := 0, sold_plots := 0,
                  total_area := 0, average_price := 0, price_min := 0,
                  price_max := 0 } :=
  C9_stats_empty_total [demoPlot] (some 9) (by decide)

/-! ## Claim C10 -/

/-- C10: `find_plots_in_radius` swallows any record-store error and returns
the empty id list, so on the large-radius path (`radius_km > 10`) the
endpoint's response to a store failure is exactly its response over an empty
store: a successful result with zero plots, never a surfaced StoreError. -/
theorem C10_large_radius_masks_store_errors (dwithin : GeoJson → Point → ℚ → Bool)
    (dist : GeoJson → Point → ℚ) (err : String) (lat lng radius_km : ℚ)
    (limit : Nat) (h : radius_km > 10) :
    find_plots_in_radius dwithin (Except.error err) lat lng radius_km = [] ∧
    get_plots_near_point dwithin dist (Except.error err) lat lng radius_km limit =
      get_plots_near_point dwithin dist (Except.ok []) lat lng radius_km limit ∧
    get_plots_near_point dwithin dist (Except.error err) lat lng radius_km limit =
      Except.ok { plots := [], center := (lat, lng), radius_km := radius_km,
                  count := 0 } := by
  refine ⟨rfl, ?_, ?_⟩ <;>
    simp [get_plots_near_point, radiusViaJob, find_plots_in_radius, h]

/-- C10 witness: a failing store queried at radius 20 km. -/
theorem C10_large_radius_masks_store_errors_witness :
    find_plots_in_radius (fun _ _ _ => true) (Except.error "boom") 0 0 20 = [] ∧
    get_plots_near_point (fun _ _ _ => true) (fun _ _ => 0) (Except.error "boom") 0 0 20 50 =
      get_plots_near_point (fun _ _ _ => true) (fun _ _ => 0) (Except.ok []) 0 0 20 50 ∧
    get_plots_near_point (fun _ _ _ => true) (fun _ _ => 0) (Except.error "boom") 0 0 20 50 =
      Except.ok { plots := [], center := (0, 0), radius_km := 20, count := 0 } :=
  C10_large_radius_masks_store_errors (fun _ _ _ => true) (fun _ _ => 0) "boom" 0 0 20 50
    (by norm_num)

/-! ## Claim C6 -/

/-- Folding `disconnect _ none` over a manager only erases from the active
list; the user map is untouched. -/
theorem foldl_disconnect_none (ds : List Nat) :
    ∀ m : ConnectionManager,
      ds.foldl (fun acc c => acc.disconnect c none) m =
        { active_connections := ds.foldl List.erase m.active_connections
          user_connections := m.user_connections } := by
  induction ds with
  | nil => intro m; rfl
  | cons d ds ih =>
    intro m
    rw [List.foldl_cons, List.foldl_cons, ih]
    rfl

/-- Erasing elements all different from the head leaves the head in place. -/
theorem foldl_erase_ne (x : Nat) :
    ∀ (ds t : List Nat), (∀ d ∈ ds, d ≠ x) →
      ds.foldl List.erase (x :: t) = x :: ds.foldl List.erase t := by
  intro ds
  induction ds with
  | nil => intro t _; rfl
  | cons d ds ih =>
    intro t hd
    have hdx : ¬(x = d) := fun he => hd d (List.mem_cons_self d ds) he.symm
    rw [List.foldl_cons, List.foldl_cons,
      List.erase_cons_tail (by simpa using hdx),
      ih (t.erase d) (fun e he => hd e (List.mem_cons_of_mem d he))]

/-- Erasing every send-failed connection from the registry is the same as
keeping exactly the connections whose send succeeded. -/
theorem foldl_erase_filter (f : Nat → Bool) :
    ∀ l : List Nat, (l.filter (fun c => !f c)).foldl List.erase l = l.filter f := by
  intro l
  induction l with
  | nil => rfl
  | cons x t ih =>
    cases hx : f x with
    | true =>
      have hds : (x :: t).filter (fun c => !f c) = t.filter (fun c => !f c) := by
        simp [hx]
      have hne : ∀ d ∈ t.filter (fun c => !f c), d ≠ x := by
        intro d hdmem hdx
        have := List.of_mem_filter hdmem
        subst hdx
        simp [hx] at this
      rw [hds, foldl_erase_ne x _ t hne, ih]
      simp [hx]
    | false =>
      have hds : (x :: t).filter (fun c => !f c) = x :: t.filter (fun c => !f c) := by
        simp [hx]
      rw [hds, List.foldl_cons, List.erase_cons_head, ih]
      simp [hx]

/-- C6: local broadcast is best-effort over the whole registry — every
registered connection is attempted, the registry afterwards keeps exactly
the connections whose send succeeded (failed ones removed), the user map is
untouched, and broadcasting over an empty registry is a silent no-op. -/
theorem C6_broadcast_best_effort (m : ConnectionManager) (sendOk : Nat → Bool) :
    (m.broadcast sendOk).2 = m.active_connections ∧
    (m.broadcast sendOk).1.active_connections
        = m.active_connections.filter (fun c => sendOk c) ∧
    (m.broadcast sendOk).1.user_connections = m.user_connections ∧
    (m.active_connections = [] → m.broadcast sendOk = (m, [])) := by
  refine ⟨rfl, ?_, ?_, ?_⟩
  · show ((m.active_connections.filter (fun c => !sendOk c)).foldl
      (fun acc c => acc.disconnect c none) m).active_connections = _
    rw [foldl_disconnect_none, foldl_erase_filter]
  · show ((m.active_connections.filter (fun c => !sendOk c)).foldl
      (fun acc c => acc.disconnect c none) m).user_connections = _
    rw [foldl_disconnect_none]
  · intro h
    simp [ConnectionManager.broadcast, h]

/-- A registry of three connections with one user-tagged entry. -/
def demoManager : ConnectionManager :=
  { active_connections := [1, 2, 3], user_connections := [("u", 2)] }

/-- Send behaviour where the transport to connection 2 raises. -/
def demoSendOk : Nat → Bool := fun c => !(c == 2)

/-- C6 witness: a registry of three connections where the send to
connection 2 fails. -/
theorem C6_broadcast_best_effort_witness :
    (demoManager.broadcast demoSendOk).2 = demoManager.active_connections ∧
    (demoManager.broadcast demoSendOk).1.active_connections
        = demoManager.active_connections.filter (fun c => demoSendOk c) ∧
    (demoManager.broadcast demoSendOk).1.user_connections
        = demoManager.user_connections ∧
    (demoManager.active_connections = [] →
      demoManager.broadcast demoSendOk = (demoManager, [])) :=
  C6_broadcast_best_effort demoManager demoSendOk

/-! ## Claim C8 -/

/-- Prepending a smaller head keeps a nondecreasing chain nondecreasing. -/
theorem chain_le_of_le_head (a b : Nat) (l : List Nat) (hab : a ≤ b)
    (h : List.Chain' (· ≤ ·) (b :: l)) : List.Chain' (· ≤ ·) (a :: l) := by
  cases l with
  | nil => simp
  | cons c t =>
    rw [List.chain'_cons] at h ⊢
    exact ⟨le_trans hab h.1, h.2⟩

/-- The progress percents emitted by the feature loop, with the percent of
the entry `processed` count prepended, form a nondecreasing chain — for any
store behaviour, including a failure partway through. -/
theorem ingestLoop_progress_chain (user_id : Nat) (location_id : Option Nat)
    (storeOk : Nat → Bool) (total : Nat) :
    ∀ (fs : List Feature) (db : Session) (k : Nat),
      List.Chain' (· ≤ ·)
        ((k * 100 / total) ::
          ((ingestLoop user_id location_id storeOk total fs db k).2.1.map
            (fun u => u.progress))) := by
  intro fs
  induction fs with
  | nil => intro db k; simp [ingestLoop]
  | cons f rest ih =>
    intro db k
    have hmono : k * 100 / total ≤ (k + 1) * 100 / total :=
      Nat.div_le_div_right (Nat.mul_le_mul_right 100 (Nat.le_succ k))
    simp only [ingestLoop]
    cases hc : create_plot db (featureToPlotCreate f k location_id) user_id
        (some f.geometry) (storeOk k) with
    | error e => simp [progressUpd]
    | ok pr =>
      rcases pr with ⟨db2, plot⟩
      dsimp only
      rcases hr : ingestLoop user_id location_id storeOk total rest db2 (k + 1)
        with ⟨dbF, upds, res⟩
      have hchain := ih db2 (k + 1)
      rw [hr] at hchain
      simp only at hchain
      cases res with
      | ok v =>
        rcases v with ⟨c2, p2⟩
        simp only [List.map_cons, progressUpd]
        exact List.Chain'.cons (le_refl _) (chain_le_of_le_head _ _ _ hmono hchain)
      | error e =>
        simp only [List.map_cons, progressUpd]
        exact List.Chain'.cons (le_refl _) (chain_le_of_le_head _ _ _ hmono hchain)

/-- When the loop finishes without an exception, the final processed count is
the entry count plus the number of features. -/
theorem ingestLoop_ok_processed :
    ∀ (fs : List Feature) (user_id : Nat) (location_id : Option Nat)
      (storeOk : Nat → Bool) (total : Nat) (db : Session) (k : Nat)
      (created : List Nat) (p : Nat),
      (ingestLoop user_id location_id storeOk total fs db k).2.2
          = Except.ok (created, p) →
      p = k + fs.length := by
  intro fs
  induction fs with
  | nil =>
    intro user_id location_id storeOk total db k created p h
    have h2 : Except.ok (([] : List Nat), k) = Except.ok (created, p) := h
    have h4 : k = p := congrArg Prod.snd (Except.ok.inj h2)
    simp only [List.length_nil, Nat.add_zero]
    exact h4.symm
  | cons f rest ih =>
    intro user_id location_id storeOk total db k created p h
    simp only [ingestLoop] at h
    cases hc : create_plot db (featureToPlotCreate f k location_id) user_id
        (some f.geometry) (storeOk k) with
    | error e => rw [hc] at h; simp at h
    | ok pr =>
      rcases pr with ⟨db2, plot⟩
      rw [hc] at h
      dsimp only at h
      rcases hr : ingestLoop user_id location_id storeOk total rest db2 (k + 1)
        with ⟨dbF, upds, res⟩
      rw [hr] at h
      cases res with
      | ok v =>
        rcases v with ⟨c2, p2⟩
        dsimp only at h
        have hp := ih user_id location_id storeOk total db2 (k + 1) c2 p2 (by rw [hr])
        have hpp : p2 = p := congrArg Prod.snd (Except.ok.inj h)
        simp only [List.length_cons]
        omega
      | error e => simp at h

/-- C8: over the whole job the reported progress percents are monotonically
nondecreasing (the initial 0 included), and every terminating run either
reports SUCCESS with `total_processed` equal to the number of features, or
reports FAILURE — there is no third terminal status. -/
theorem C8_progress_monotone_and_terminal (features : List Feature)
    (user_id : Nat) (location_id : Option Nat) (storeOk : Nat → Bool)
    (db0 : Session) :
    List.Chain' (· ≤ ·)
      (((process_shapefile features user_id location_id storeOk db0).2.1).map
        (fun u => u.progress)) ∧
    ((process_shapefile features user_id location_id storeOk db0).2.2.status
        = "SUCCESS" →
      (process_shapefile features user_id location_id storeOk db0).2.2.total_processed
        = features.length) ∧
    ((process_shapefile features user_id location_id storeOk db0).2.2.status
        ≠ "SUCCESS" →
      (process_shapefile features user_id location_id storeOk db0).2.2.status
        = "FAILURE") := by
  have hchain := ingestLoop_progress_chain user_id location_id storeOk
    features.length features db0 0
  rcases hr : ingestLoop user_id location_id storeOk features.length features db0 0
    with ⟨dbF, upds, res⟩
  rw [hr] at hchain
  simp only at hchain
  cases res with
  | ok v =>
    rcases v with ⟨created, p⟩
    have hp : p = features.length := by
      have := ingestLoop_ok_processed features user_id location_id storeOk
        features.length db0 0 created p (by rw [hr])
      omega
    refine ⟨?_, ?_, ?_⟩
    · simp only [process_shapefile, hr, List.map_cons]
      simpa using hchain
    · intro _
      simp [process_shapefile, hr, hp]
    · intro h
      exact absurd (by simp [process_shapefile, hr]) h
  | error e =>
    refine ⟨?_, ?_, ?_⟩
    · simp only [process_shapefile, hr, List.map_cons]
      simpa using hchain
    · intro h
      simp only [process_shapefile, hr] at h
      exact absurd h (by decide)
    · intro _
      simp [process_shapefile, hr]

/-- C8 witness: the 3-feature job with a store failure on its second
feature, and the same dataset with a store that accepts everything. -/
theorem C8_progress_monotone_and_terminal_witness :
    List.Chain' (· ≤ ·)
      (((process_shapefile c1Features 7 none c1StoreOk emptySession).2.1).map
        (fun u => u.progress)) ∧
    ((process_shapefile c1Features 7 none c1StoreOk emptySession).2.2.status
        = "SUCCESS" →
      (process_shapefile c1Features 7 none c1StoreOk emptySession).2.2.total_processed
        = c1Features.length) ∧
    ((process_shapefile c1Features 7 none c1StoreOk emptySession).2.2.status
        ≠ "SUCCESS" →
      (process_shapefile c1Features 7 none c1StoreOk emptySession).2.2.status
        = "FAILURE") :=
  C8_progress_monotone_and_terminal c1Features 7 none c1StoreOk emptySession

/-! ## Claim C3 -/

/-- `insertByKey` inserts its element somewhere: the result is a permutation
of consing it. -/
theorem insertByKey_perm (key : Plot → ℚ) (p : Plot) :
    ∀ l : List Plot, (insertByKey key p l).Perm (p :: l) := by
  intro l
  induction l with
  | nil => simp [insertByKey]
  | cons q rest ih =>
    simp only [insertByKey]
    by_cases h : key p ≤ key q
    · rw [if_pos h]
    · rw [if_neg h]
      exact (ih.cons q).trans (List.Perm.swap p q rest)

/-- Ordering by distance only permutes the selected rows. -/
theorem sortByKey_perm (key : Plot → ℚ) :
    ∀ l : List Plot, (sortByKey key l).Perm l := by
  intro l
  induction l with
  | nil => simp [sortByKey]
  | cons p rest ih =>
    exact (insertByKey_perm key p (sortByKey key rest)).trans (ih.cons p)

/-- An `ST_DWithin` instance that holds everywhere (the plot lies inside
every queried circle). -/
def trueWithin : GeoJson → Point → ℚ → Bool := fun _ _ _ => true

/-- A degenerate `ST_Distance`. -/
def zeroDist : GeoJson → Point → ℚ := fun _ _ => 0

/-- C3 counterexample: the claim says the direct (radius ≤ 10) and job-queued
(radius > 10) paths return the same result set over the same store whenever
they select the same ground area. With a store holding a single SOLD plot
inside the queried circle (`trueWithin` selects it at every radius, so both
radii cover it), the direct path at radius 5 returns no plots (it filters
`status = 'available'`) while the job path at radius 20 returns the sold
plot (its SQL has no status filter): different result sets. -/
theorem C3_counterexample :
    get_plots_near_point trueWithin zeroDist (Except.ok [demoPlot]) 0 0 5 50 =
      Except.ok { plots := [], center := (0, 0), radius_km := 5, count := 0 } ∧
    get_plots_near_point trueWithin zeroDist (Except.ok [demoPlot]) 0 0 20 50 =
      Except.ok { plots := [demoPlot], center := (0, 0), radius_km := 20, count := 1 } ∧
    ([] : List Plot) ≠ [demoPlot] := by
  refine ⟨rfl, rfl, by simp⟩

/-- C3 amended: the two paths share only the `ST_DWithin` selection; the
direct path additionally filters `status = 'available'` and orders by
distance, the job path does neither. The result sets coincide (up to order)
only under extra conditions: every stored plot is AVAILABLE, plot ids are
unique, and the matches fit within the limit. Under those conditions the
direct result is a permutation of the job result; in general (C3's
counterexample) they differ. -/
theorem C3_amended_paths_agree_only_if_all_available
    (dwithin : GeoJson → Point → ℚ → Bool) (dist : GeoJson → Point → ℚ)
    (plots : List Plot) (lat lng radius_km : ℚ) (limit : Nat)
    (h1 : ∀ p ∈ plots, p.status = PlotStatus.available)
    (h2 : (plots.map (fun p => p.id)).Nodup)
    (h3 : (plots.filter (withinPred dwithin lng lat (radius_km / 111))).length ≤ limit) :
    ∃ l, radiusViaJob dwithin (Except.ok plots) lat lng radius_km limit = Except.ok l ∧
      (radiusDirect dwithin dist plots lat lng radius_km limit).Perm l := by
  have hsel : plots.filter (fun p =>
        withinPred dwithin lng lat (radius_km / 111) p && p.status == PlotStatus.available)
      = plots.filter (withinPred dwithin lng lat (radius_km / 111)) := by
    apply List.filter_congr
    intro p hp
    rw [h1 p hp]
    simp
  have hdirect : (radiusDirect dwithin dist plots lat lng radius_km limit).Perm
      (plots.filter (withinPred dwithin lng lat (radius_km / 111))) := by
    simp only [radiusDirect]
    rw [hsel]
    rw [List.take_of_length_le]
    · exact sortByKey_perm _ _
    · rw [(sortByKey_perm _ _).length_eq]
      exact h3
  have hids : find_plots_in_radius dwithin (Except.ok plots) lat lng radius_km
      = (plots.filter (withinPred dwithin lng lat (radius_km / 111))).map
          (fun p => p.id) := rfl
  cases hm : plots.filter (withinPred dwithin lng lat (radius_km / 111)) with
  | nil =>
    refine ⟨[], ?_, ?_⟩
    · simp only [radiusViaJob]
      rw [hids, hm]
      rfl
    · rw [hm] at hdirect
      simpa using hdirect
  | cons q qs =>
    have hcontains : plots.filter
        (fun p => ((q :: qs).map (fun r => r.id)).contains p.id)
        = plots.filter (withinPred dwithin lng lat (radius_km / 111)) := by
      apply List.filter_congr
      intro p hp
      cases hw : withinPred dwithin lng lat (radius_km / 111) p with
      | false =>
        -- p is not within: its id cannot be among the matched ids
        have hnot : ¬ (p.id ∈ (q :: qs).map (fun r => r.id)) := by
          intro hmem
          rw [List.mem_map] at hmem
          obtain ⟨r, hrmem, hrid⟩ := hmem
          rw [← hm] at hrmem
          have hrplots := List.mem_of_mem_filter hrmem
          have hrw := List.of_mem_filter hrmem
          have hrp : r = p := List.inj_on_of_nodup_map h2 hrplots hp hrid
          rw [hrp, hw] at hrw
          exact Bool.false_ne_true hrw
        cases hcont : ((q :: qs).map (fun r => r.id)).contains p.id with
        | false => rfl
        | true => exact absurd (List.elem_iff.mp hcont) hnot
      | true =>
        -- p is within: its id is in the matched ids
        apply List.elem_iff.mpr
        rw [List.mem_map]
        refine ⟨p, ?_, rfl⟩
        rw [← hm]
        exact List.mem_filter_of_mem hp hw
    have hlen : (q :: qs).length ≤ limit := by rw [hm] at h3; exact h3
    refine ⟨q :: qs, ?_, ?_⟩
    · simp only [radiusViaJob]
      rw [hids, hm]
      rw [if_neg (by simp)]
      rw [hcontains, hm]
      rw [List.take_of_length_le hlen]
    · rw [hm] at hdirect
      exact hdirect

/-- C3 witness for the amended theorem: one AVAILABLE plot inside the
circle, limit 50. -/
theorem C3_amended_paths_agree_witness :
    ∃ l, radiusViaJob trueWithin
        (Except.ok [{ demoPlot with status := PlotStatus.available }]) 0 0 20 50
        = Except.ok l ∧
      (radiusDirect trueWithin zeroDist
        [{ demoPlot with status := PlotStatus.available }] 0 0 20 50).Perm l :=
  C3_amended_paths_agree_only_if_all_available trueWithin zeroDist
    [{ demoPlot with status := PlotStatus.available }] 0 0 20 50
    (by intro p hp; simp at hp; rw [hp]) (by decide) (by decide)

/-! ## Claim C4 -/

/-- C4 counterexample: the claim says a ring of fewer than 3 distinct points
is rejected with a ValidationError before querying the store. On a 2-point
input the code builds a 3-point WKT ring, `ST_GeomFromText` raises, and the
blanket `except` turns it into HTTP 500 — a generic internal error, not a
ValidationError (HTTP 400). -/
theorem C4_counterexample :
    get_plots_in_area (fun _ _ => true) (Except.ok []) [(0, 0), (1, 1)]
        = Except.error 500 ∧
    get_plots_in_area (fun _ _ => true) (Except.ok []) [(0, 0), (1, 1)]
        ≠ Except.error 400 := by
  refine ⟨rfl, ?_⟩
  intro h
  rw [(rfl : get_plots_in_area (fun _ _ => true) (Except.ok []) [(0, 0), (1, 1)]
    = Except.error 500)] at h
  injection h with h2
  exact absurd h2 (by decide)

/-- C4 amended: the engine always appends the first coordinate to close the
ring; inputs of fewer than 3 coordinates (closed ring shorter than the 4
points WKT requires) surface as a generic HTTP 500 internal error — there is
no ValidationError and no distinct-points check — and every row returned for
an accepted ring has status AVAILABLE. -/
theorem C4_amended_short_ring_is_500 (within : GeoJson → List Point → Bool)
    (store : Except String (List Plot)) (polygon_coords : List Point) :
    (polygon_coords.length < 3 →
      get_plots_in_area within store polygon_coords = Except.error 500) ∧
    (∀ resp, get_plots_in_area within store polygon_coords = Except.ok resp →
      ∀ row ∈ resp.plots, row.status = PlotStatus.available) := by
  constructor
  · intro hlen
    cases polygon_coords with
    | nil => rfl
    | cons c0 tl =>
      simp only [get_plots_in_area]
      rw [if_pos]
      simp only [List.length_append, List.length_cons, List.length_nil] at hlen ⊢
      omega
  · intro resp heq row hrow
    cases polygon_coords with
    | nil => simp [get_plots_in_area] at heq
    | cons c0 tl =>
      simp only [get_plots_in_area] at heq
      by_cases hlen : ((c0 :: tl) ++ [c0]).length < 4
      · rw [if_pos hlen] at heq
        simp at heq
      · rw [if_neg hlen] at heq
        cases store with
        | error e => simp at heq
        | ok plots =>
          dsimp only at heq
          have hresp := Except.ok.inj heq
          rw [← hresp] at hrow
          simp only [List.mem_map] at hrow
          obtain ⟨p, hpmem, hprow⟩ := hrow
          have hpred := List.of_mem_filter hpmem
          simp only [Bool.and_eq_true, beq_iff_eq] at hpred
          rw [← hprow]
          exact hpred.2

/-- C4 witness: a 2-point input over a working store (HTTP 500), and a
4-point square over a store holding one available plot everywhere-within. -/
theorem C4_amended_short_ring_is_500_witness :
    (([(0, 0), (1, 1)] : List Point).length < 3 →
      get_plots_in_area (fun _ _ => true) (Except.ok [demoPlot]) [(0, 0), (1, 1)]
        = Except.error 500) ∧
    (∀ resp, get_plots_in_area (fun _ _ => true) (Except.ok [demoPlot]) [(0, 0), (1, 1)]
        = Except.ok resp →
      ∀ row ∈ resp.plots, row.status = PlotStatus.available) :=
  C4_amended_short_ring_is_500 (fun _ _ => true) (Except.ok [demoPlot]) [(0, 0), (1, 1)]

end LandParcel
